import Mathlib

/- Shallow embedding of the dtdatalog repository (dtdatalog/keithley.py and
   dtdatalog/datalog.py).  The Python float arithmetic of the source is
   modelled exactly with rationals.  The serial transport is modelled by
   passing the parsed device response values in as arguments and by
   returning the list of command strings a call writes to the port. -/

set_option autoImplicit false

/- Batteries marks the rational operations irreducible, which blocks decide
   and rfl on concrete rational values; restore the default reducibility so
   concrete program states evaluate. -/
attribute [local semireducible] Rat.add Rat.mul Rat.inv Rat.sub Rat.ofScientific

/-- Python exceptions raised on the embedded code paths.  KeithleyError is
the exception class defined in keithley.py; the others are builtin Python
exceptions that particular statements of the source can raise. -/
inductive PyError where
  | keithleyError (msg : String) : PyError
  | valueError : PyError
  | typeError : PyError
  | attributeError : PyError
  | keyError : PyError
  | unboundLocalError : PyError
deriving DecidableEq

/-- Keyword arguments threaded through channel setup and read dispatch
(keithley.py passes these as a kws dict; the keys actually consulted by the
source are alpha, ro, cold_junction, sensor_type, aper and range).  A field
that is none models an absent key. -/
structure Kws where
  alpha : Option ℚ
  ro : Option ℚ
  cold_junction : Option Bool
  sensor_type : Option String
  aper : Option ℚ
  range : Option ℚ
deriving DecidableEq

/-- Kws dict with no keys set. -/
def noKws : Kws :=
  { alpha := none, ro := none, cold_junction := none, sensor_type := none,
    aper := none, range := none }

/-- Coefficients of the first K-type breakpoint polynomial
(keithley.py lines 36-45, -200 to 0 degrees C), low-to-high order. -/
def kCoeffs0 : List ℚ :=
  [0, 25.173462, -1.1662878, -1.0833638, -0.89773540, -0.37342377,
   -0.086632643, -0.010450598, -0.00051920577]

/-- Coefficients of the second K-type breakpoint polynomial
(keithley.py lines 46-56, 0 to 500 degrees C). -/
def kCoeffs1 : List ℚ :=
  [0, 25.08355, 0.07860106, -0.2503131, 0.08315270, -0.01228034,
   0.0009804036, -0.00004413030, 0.000001057734, -0.00000001052755]

/-- Coefficients of the third K-type breakpoint polynomial
(keithley.py lines 57-64, 500 to 1872 degrees C). -/
def kCoeffs2 : List ℚ :=
  [-131.8058, 48.30222, -1.646031, 0.05464731, -0.0009650715,
   0.000008802193, -0.00000003110810]

/-- The K entry of THERMOCOUPLE_TABLES (keithley.py lines 35-66): an
ascending list of pairs of an upper bound in millivolts and the breakpoint
polynomial coefficients. -/
def THERMOCOUPLE_TABLE_K : List (ℚ × List ℚ) :=
  [(0, kCoeffs0), (20.644, kCoeffs1), (54.886, kCoeffs2)]

/-- THERMOCOUPLE_TABLES, a mapping from sensor type to breakpoint table. -/
def THERMOCOUPLE_TABLES : List (String × List (ℚ × List ℚ)) :=
  [("K", THERMOCOUPLE_TABLE_K)]

/-- Evaluation of a numpy Polynomial with the given low-to-high coefficient
list at a point (Horner scheme, as numpy polyval performs it). -/
def polyEval : List ℚ → ℚ → ℚ
  | [], _ => 0
  | a :: rest, x => a + x * polyEval rest x

/-- Power-series form of polynomial evaluation: the sum of coefficient i
times x to the i. -/
def powerSeries (coeffs : List ℚ) (x : ℚ) : ℚ :=
  ∑ i ∈ Finset.range coeffs.length, coeffs.getD i 0 * x ^ i

/-- The breakpoint scan loop of Keithley2700.thermocouple_to_deg_c
(keithley.py lines 172-176): entries whose bound is at most mv are skipped;
at the first remaining entry the polynomial is evaluated and the cold
junction temperature added.  Reading self.cold_junction_temp when the
attribute was never assigned raises AttributeError, modelled by the none
case of the cjt argument. -/
def tcScan : List (ℚ × List ℚ) → ℚ → Option ℚ → Except PyError (Option ℚ)
  | [], _, _ => .ok none
  | e :: rest, mv, cjt =>
    if e.1 ≤ mv then tcScan rest mv cjt
    else
      match cjt with
      | none => .error .attributeError
      | some c => .ok (some (polyEval e.2 mv + c))

/-- Keithley2700.thermocouple_to_deg_c (keithley.py lines 168-176).  The
cjt argument is the current value of the cold_junction_temp attribute,
none when the attribute was never assigned. -/
def thermocouple_to_deg_c (mv : ℚ) (sensor_type : String) (cjt : Option ℚ) :
    Except PyError (Option ℚ) :=
  if 100 < |mv| then .ok none
  else
    match THERMOCOUPLE_TABLES.lookup sensor_type with
    | none => .error .keyError
    | some table => tcScan table mv cjt

/-- Keithley2700.rtd_to_deg_c (keithley.py lines 165-166). -/
def rtd_to_deg_c (ohms alpha ro : ℚ) : ℚ :=
  (ohms / ro - 1) / alpha

/-- State of a Keithley2700 object (keithley.py).  The _lastread and
_config attributes are created by reset; cold_junction_temp is only ever
assigned inside read (line 196), so a session in which no cold-junction
channel has been read carries none here, meaning the attribute does not
exist on the Python object. -/
structure KState where
  lastread : ℕ
  config : List (ℕ × String × Kws)
  cold_junction_temp : Option ℚ
deriving DecidableEq

/-- Membership and subscript lookup on the _config dict, modelled as an
insertion-ordered association list. -/
def lookupConfig : List (ℕ × String × Kws) → ℕ → Option (String × Kws)
  | [], _ => none
  | (k, v) :: rest, ch => if k = ch then some v else lookupConfig rest ch

/-- Python dict assignment: an existing key is updated in place keeping its
position, a new key is appended at the end. -/
def configSet : List (ℕ × String × Kws) → ℕ → String × Kws →
    List (ℕ × String × Kws)
  | [], ch, v => [(ch, v)]
  | (k, w) :: rest, ch, v =>
    if k = ch then (k, v) :: rest else (k, w) :: configSet rest ch v

/-- Single-quote character used by the FUNC command string. -/
def squoteStr : String := String.singleton (Char.ofNat 39)

/-- Keithley2700.setup_ch (keithley.py lines 129-148), returning the list
of command strings written.  The aper and range values reach setup_ch as
keyword arguments in this repository, so the extra positional args of add
are empty and are not modelled.  Numeric rendering inside the command text
uses the Rat printer; the claims never inspect those digits. -/
def setup_ch (func : String) (channel : ℕ) (kws : Kws) : List String :=
  let clist := if 100 ≤ channel then ", (@" ++ Nat.repr channel ++ ")" else ""
  let fr : String × Option ℚ :=
    if func = "RTD" then ("RES", kws.range)
    else if func = "THERMOCOUPLE" then ("VOLT:DC", some (1 / 10))
    else (func, kws.range)
  ("FUNC " ++ squoteStr ++ fr.1 ++ squoteStr ++ clist)
  :: (match fr.2 with
      | none => fr.1 ++ ":RANG:AUTO ON" ++ clist
      | some r => fr.1 ++ ":RANG " ++ toString r ++ clist)
  :: (match kws.aper with
      | none => []
      | some a => if a = 0 then [] else [fr.1 ++ ":APER " ++ toString a ++ clist])

/-- The tuple of accepted function names in Keithley2700.add (keithley.py
lines 151-153).  The source writes the adjacent string literals
"VOLT:AC" "CURR:DC" with no comma between them, so Python concatenates
them into the single element "VOLT:ACCURR:DC". -/
def VALID_FUNCS : List String :=
  ["VOLT:DC", "VOLT:ACCURR:DC", "CURR:AC", "RES", "FRES", "TEMP", "FREQ",
   "PER", "CONT", "RTD", "THERMOCOUPLE"]

/-- Keithley2700.add (keithley.py lines 150-159): validate the function
name, store the config under the channel, run setup_ch, return the
channel.  The result carries the new state, the commands written by
setup_ch and the returned channel number. -/
def add (st : KState) (func : String) (channel : ℕ) (kws : Kws) :
    Except PyError (KState × List String × ℕ) :=
  if func ∈ VALID_FUNCS then
    .ok ({ st with config := configSet st.config channel (func, kws) },
         setup_ch func channel kws, channel)
  else .error .valueError

/-- Keithley2700.reset (keithley.py lines 124-127): after the _reset
command sequence it sets _lastread to 0 and empties _config.  It does not
touch cold_junction_temp. -/
def reset (st : KState) : KState :=
  { st with lastread := 0, config := [] }

/-- Session state right after Keithley2700.__init__, which calls reset on
an object that has no cold_junction_temp attribute yet. -/
def K_init : KState :=
  reset { lastread := 0, config := [], cold_junction_temp := none }

/-- Keithley2700.read (keithley.py lines 178-201).  The rawVal argument is
the numeric value parsed from the read query response (leading token with
the three-character unit suffix stripped, line 191).  The source assigns
the local variable func only inside the branch taken when the channel is
not the cached last-read one; the boundCfg value mirrors that local, and
dispatching on it when it was never assigned raises UnboundLocalError.
The returned triple is the state after the call, the commands written and
the value the Python function returns.  On an exception the in-place
mutations made before the raise are not observable here. -/
def read (st : KState) (channel : ℕ) (rawVal : ℚ) :
    Except PyError (KState × List String × Option ℚ) :=
  match lookupConfig st.config channel with
  | none => .error (.keithleyError ("Unconfigured Channel: " ++ Nat.repr channel ++ "."))
  | some cfg =>
    let boundCfg : Option (String × Kws) :=
      if channel ≠ st.lastread then some cfg else none
    let cmds : List String :=
      (match boundCfg with
       | some fk =>
         if 100 ≤ channel then ["ROUT:CLOS (@" ++ Nat.repr channel ++ ")"]
         else "ROUT:OPEN:ALL" :: setup_ch fk.1 0 fk.2
       | none => []) ++ ["READ?"]
    let st1 : KState := { st with lastread := channel }
    let val := rawVal
    match boundCfg with
    | none => .error .unboundLocalError
    | some fk =>
      if fk.1 = "RTD" then
        let rtd_val := rtd_to_deg_c val (fk.2.alpha.getD 0.00385) (fk.2.ro.getD 1000)
        if fk.2.cold_junction.getD false then
          .ok ({ st1 with cold_junction_temp := some rtd_val }, cmds, some rtd_val)
        else .ok (st1, cmds, some rtd_val)
      else if fk.1 = "THERMOCOUPLE" then
        match thermocouple_to_deg_c val (fk.2.sensor_type.getD "K") st1.cold_junction_temp with
        | .error e => .error e
        | .ok r => .ok (st1, cmds, r)
      else .ok (st1, cmds, some val)

/-- Loop body of Keithley2700.readall over the list of configured channel
numbers, threading the session state and collecting the per-channel
results in iteration order. -/
def readallGo (raws : ℕ → ℚ) : KState → List ℕ →
    Except PyError (KState × List (ℕ × Option ℚ))
  | st, [] => .ok (st, [])
  | st, ch :: rest =>
    match read st ch (raws ch) with
    | .error e => .error e
    | .ok (st2, _, v) =>
      match readallGo raws st2 rest with
      | .error e => .error e
      | .ok (st3, tl) => .ok (st3, (ch, v) :: tl)

/-- Keithley2700.readall (keithley.py lines 203-208): iterate the dict
keys in insertion order, read each channel, return the ordered mapping of
results.  The raws argument supplies the parsed device response for each
channel. -/
def readall (st : KState) (raws : ℕ → ℚ) :
    Except PyError (KState × List (ℕ × Option ℚ)) :=
  readallGo raws st (st.config.map Prod.fst)

/-- Kws of the RTD channel descriptor used by ThermocoupleBlockDataThread
(keithley.py line 254). -/
def rtdKws : Kws :=
  { noKws with alpha := some 0.00385, ro := some 1000, cold_junction := some true }

/-- Kws of a type K thermocouple channel descriptor (keithley.py line 255). -/
def tcKws : Kws := { noKws with sensor_type := some "K" }

/- String helpers for the protocol error check, written by structural
   recursion on the character list of a Python string so that concrete
   instances evaluate in the kernel. -/

/-- Drop the characters satisfying p from both ends of a string, as the
Python str.strip family does. -/
def trimBy (p : Char → Bool) (s : String) : String :=
  ⟨((s.toList.dropWhile p).reverse.dropWhile p).reverse⟩

/-- Python str.strip with no argument: remove surrounding whitespace. -/
def pyTrim (s : String) : String := trimBy (fun c => c.isWhitespace) s

/-- Python str.strip applied with a double quote argument: remove the
surrounding double quote characters. -/
def stripQuotes (s : String) : String := trimBy (fun c => c = '"') s

/-- Python str.split on a comma separator. -/
def splitCommaList : List Char → List (List Char)
  | [] => [[]]
  | c :: rest =>
    let r := splitCommaList rest
    if c = ',' then [] :: r
    else
      match r with
      | [] => [[c]]
      | h :: t => (c :: h) :: t

/-- Python str.split applied to a comma, on strings. -/
def splitComma (s : String) : List String :=
  (splitCommaList s.toList).map (fun l => ⟨l⟩)

/-- Accumulate decimal digits; fails at the first non-digit character. -/
def parseDigits : List Char → ℕ → Option ℕ
  | [], acc => some acc
  | c :: r, acc =>
    if c.isDigit then parseDigits r (10 * acc + (c.toNat - 48)) else none

/-- Python int applied to a string: surrounding whitespace is ignored, an
optional sign is followed by at least one decimal digit, anything else
raises ValueError (modelled as none). -/
def parseIntStr (s : String) : Option Int :=
  match (pyTrim s).toList with
  | [] => none
  | c :: rest =>
    if c = '-' then
      match rest with
      | [] => none
      | _ => (parseDigits rest 0).map (fun n => -(n : Int))
    else if c = '+' then
      match rest with
      | [] => none
      | _ => (parseDigits rest 0).map (fun n => (n : Int))
    else (parseDigits (c :: rest) 0).map (fun n => (n : Int))

/-- The message text of the KeithleyError raised by Keithley2700._command
(keithley.py lines 99-100). -/
def errMsg (cmd text code : String) : String :=
  "Keithley reported an error while running \"" ++ cmd ++ "\": " ++ text ++
    " (" ++ code ++ ")"

/-- Error handling tail of Keithley2700._command (keithley.py lines
96-100): the first non-empty response line of the error query is split on
commas and unpacked into a code and a text part (a different shape raises
ValueError); a non-zero integer code raises KeithleyError carrying the
command, the stripped text and the code. -/
def check_error (cmd err : String) : Except PyError Unit :=
  match splitComma err with
  | [code, text] =>
    match parseIntStr code with
    | none => .error .valueError
    | some c =>
      if c ≠ 0 then
        .error (.keithleyError (errMsg cmd (stripQuotes (pyTrim text)) code))
      else .ok ()
  | _ => .error .valueError

/- FileWriter (datalog.py): output file name selection and fixed-width
   line formatting. -/

/-- Zero padding of a natural number to a minimum width, the Python format
spec 0 followed by the width applied to a non-negative integer. -/
def padZeros (w n : ℕ) : String :=
  let s := Nat.repr n
  if s.length < w then ⟨List.replicate (w - s.length) '0'⟩ ++ s else s

/-- The candidate file name probed by FileWriter.__init__ (datalog.py
line 35): optional caller prefix, three-wide zero-padded index, optional
descriptive tag, .dat extension.  A missing fname argument behaves as the
empty string. -/
def mkName (fname sfx : String) (idx : ℕ) : String :=
  (if fname = "" then fname else fname ++ "_") ++ padZeros 3 idx ++
    (if sfx = "" then sfx else "_" ++ sfx) ++ ".dat"

/-- The probe loop of FileWriter.__init__ (datalog.py lines 33-38): try
indices upward from idx and return the first whose name is not among the
existing files.  The source loop is unbounded; fuel bounds the recursion
here and none models not finding a free name within the fuel. -/
def findName (fname sfx : String) (existing : List String) :
    ℕ → ℕ → Option ℕ
  | 0, _ => none
  | fuel + 1, idx =>
    if mkName fname sfx idx ∈ existing then
      findName fname sfx existing fuel (idx + 1)
    else some idx

/-- Sequential construction of n FileWriter instances with the same prefix
and tag: each chooses its index against the files present, then its file
is created and joins the existing set for the next construction. -/
def createSinks (fname sfx : String) (fuel : ℕ) (existing : List String) :
    ℕ → Option (List ℕ)
  | 0 => some []
  | n + 1 =>
    (findName fname sfx existing fuel 0).bind fun i =>
      (createSinks fname sfx fuel (mkName fname sfx i :: existing) n).map
        fun rest => i :: rest

/-- Right justification to a field width with spaces, the Python format
alignment used by every column. -/
def padLeftStr (w : ℕ) (s : String) : String :=
  if s.length < w then ⟨List.replicate (w - s.length) ' '⟩ ++ s else s

/-- Round to the nearest integer, ties to the even one, as Python float
formatting rounds the scaled decimal value. -/
def roundHalfEven (q : ℚ) : ℤ :=
  let f := q.floor
  let r := q - (f : ℚ)
  if r < 1 / 2 then f
  else if 1 / 2 < r then f + 1
  else if f % 2 = 0 then f else f + 1

/-- Fixed-point rendering of a rational with the given number of decimal
places in a ten-wide right-justified field, the format spec of
KeithleyDataThread (value columns, three decimals) and of the TIME column
(four decimals).  The binary double rounding of the source is modelled as
exact decimal rounding. -/
def formatFixed10 (prec : ℕ) (q : ℚ) : String :=
  let n := roundHalfEven (q * (10 : ℚ) ^ prec)
  let a := n.natAbs
  let core := Nat.repr (a / 10 ^ prec) ++ "." ++ padZeros prec (a % 10 ^ prec)
  padLeftStr 10 (if n < 0 then "-" ++ core else core)

/-- Formatting of one channel value by the per-sample line format.  The
format spec of a value column is numeric, so formatting the Python None
produced by an invalid reading raises TypeError. -/
def formatValue (v : Option ℚ) : Except PyError String :=
  match v with
  | none => .error .typeError
  | some q => .ok (formatFixed10 3 q)

/-- Evaluation of the value fields of one data line in argument order,
stopping at the first failing field, as str.format does. -/
def mapValues : List (Option ℚ) → Except PyError (List String)
  | [] => .ok []
  | v :: rest =>
    match formatValue v with
    | .error e => .error e
    | .ok s =>
      match mapValues rest with
      | .error e => .error e
      | .ok l => .ok (s :: l)

/-- FileWriter.output_data (datalog.py lines 55-57) on one sample as
KeithleyDataThread writes it: the line format applies the four-decimal
TIME format to the elapsed time and the three-decimal value format to
each channel value, joins the fields with single spaces and ends the line
with a newline.  The result is the written line, or the exception raised
while formatting. -/
def output_data (tm : ℚ) (vals : List (Option ℚ)) : Except PyError String :=
  match mapValues vals with
  | .error e => .error e
  | .ok parts =>
    .ok (String.intercalate " " (formatFixed10 4 tm :: parts) ++ "\n")

/- DataThreadBase.run and DataThreadBase.stop (datalog.py lines 75-77 and
   85-89) with a concurrent stop call, modelled as event traces.  The
   events of one session are the sample lines written by the worker inside
   the run loop, the worker exiting (run returning), the stop call setting
   the stopping event, and the stop call returning from join. -/

/-- Events of one sampling session. -/
inductive LoopEvent where
  | write (sample : List ℚ) : LoopEvent
  | workerExit : LoopEvent
  | stopSet : LoopEvent
  | joinReturn : LoopEvent
deriving DecidableEq

/-- Recognizer for sample write events. -/
def isWriteEv : LoopEvent → Bool
  | .write _ => true
  | _ => false

/-- The interleavings that an execution of run together with one stop call
can produce, given the structure of the source and the threading library
contract: every write happens inside the run loop and so before the worker
exits; stop sets the stopping event and then joins, and join returns only
after run has returned, so the worker exit precedes the join return and
the stop call does return; once the stopping event is set the loop
condition fails at its next check, so at most the one in-flight iteration
writes after the set; join is called once, so the join return is unique. -/
def ValidTrace (tr : List LoopEvent) : Prop :=
  ∃ iSet iExit iJoin : ℕ,
    tr[iSet]? = some .stopSet ∧
    tr[iExit]? = some .workerExit ∧
    tr[iJoin]? = some .joinReturn ∧
    iSet < iJoin ∧
    iExit < iJoin ∧
    (∀ j e, tr[j]? = some e → isWriteEv e = true → j < iExit) ∧
    (tr.drop (iSet + 1)).countP isWriteEv ≤ 1 ∧
    (∀ i, tr[i]? = some .joinReturn → i = iJoin)

/- Helper lemmas. -/

/-- Horner evaluation of a coefficient list agrees with the power series
sum of coefficient i times x to the i. -/
lemma polyEval_eq_powerSeries (l : List ℚ) (x : ℚ) :
    polyEval l x = powerSeries l x := by
  induction l with
  | nil => simp [polyEval, powerSeries]
  | cons a t ih =>
    rw [polyEval, ih]
    unfold powerSeries
    rw [List.length_cons, Finset.sum_range_succ']
    simp only [List.getD_cons_succ, List.getD_cons_zero, pow_zero, pow_succ,
      mul_one, ← mul_assoc]
    rw [← Finset.sum_mul]
    ring

/-- The breakpoint scan with an available cold junction value returns the
polynomial of the first entry whose upper bound exceeds the input,
evaluated there, plus the cold junction value; entries whose bound does
not exceed the input are skipped, and the scan returns no value when no
entry remains. -/
lemma tcScan_find (t : List (ℚ × List ℚ)) (mv c : ℚ) :
    tcScan t mv (some c) =
      .ok ((t.find? (fun e => decide (mv < e.1))).map
        (fun e => polyEval e.2 mv + c)) := by
  induction t with
  | nil => rfl
  | cons e rest ih =>
    rcases le_or_lt e.1 mv with h | h
    · have h1 : tcScan (e :: rest) mv (some c) = tcScan rest mv (some c) := by
        simp [tcScan, h]
      rw [h1, ih, List.find?_cons_of_neg]
      simp only [decide_eq_true_eq]
      exact not_lt.mpr h
    · have h1 : tcScan (e :: rest) mv (some c) = .ok (some (polyEval e.2 mv + c)) := by
        simp [tcScan, not_le.mpr h]
      rw [h1, List.find?_cons_of_pos]
      · rfl
      · simp only [decide_eq_true_eq]
        exact h

/-- After a dict assignment the assigned key maps to the assigned value. -/
lemma lookupConfig_configSet (cfg : List (ℕ × String × Kws)) (ch : ℕ)
    (v : String × Kws) :
    lookupConfig (configSet cfg ch v) ch = some v := by
  induction cfg with
  | nil => simp [configSet, lookupConfig]
  | cons p rest ih =>
    obtain ⟨k, w⟩ := p
    by_cases h : k = ch
    · simp [configSet, h, lookupConfig]
    · simp [configSet, h, lookupConfig, ih]

/-- A successful probe returns an index at least the starting one whose
name is free, and every index from the start up to it was taken. -/
lemma findName_sound (fname sfx : String) (existing : List String) :
    ∀ fuel idx r, findName fname sfx existing fuel idx = some r →
      idx ≤ r ∧ mkName fname sfx r ∉ existing ∧
        ∀ j, idx ≤ j → j < r → mkName fname sfx j ∈ existing := by
  intro fuel
  induction fuel with
  | zero => intro idx r h; simp [findName] at h
  | succ n ih =>
    intro idx r h
    rw [findName] at h
    by_cases hm : mkName fname sfx idx ∈ existing
    · rw [if_pos hm] at h
      obtain ⟨h1, h2, h3⟩ := ih (idx + 1) r h
      refine ⟨by omega, h2, ?_⟩
      intro j hj1 hj2
      rcases eq_or_lt_of_le hj1 with rfl | hlt
      · exact hm
      · exact h3 j (by omega) hj2
    · rw [if_neg hm] at h
      cases h
      exact ⟨le_rfl, hm, fun j h1 h2 => absurd h2 (by omega)⟩

/-- The probe succeeds when some index within the fuel has a free name. -/
lemma findName_isSome (fname sfx : String) (existing : List String) :
    ∀ fuel idx k, idx ≤ k → k < idx + fuel →
      mkName fname sfx k ∉ existing →
      (findName fname sfx existing fuel idx).isSome = true := by
  intro fuel
  induction fuel with
  | zero => intro idx k h1 h2 _; omega
  | succ n ih =>
    intro idx k h1 h2 hk
    rw [findName]
    by_cases hm : mkName fname sfx idx ∈ existing
    · rw [if_pos hm]
      have hne : k ≠ idx := by rintro rfl; exact hk hm
      exact ih (idx + 1) k (by omega) (by omega) hk
    · rw [if_neg hm]; rfl

/-- Every index chosen by a sequence of sink constructions has a name that
was not among the files existing before the sequence started. -/
lemma createSinks_fresh (fname sfx : String) (fuel : ℕ) :
    ∀ n existing l, createSinks fname sfx fuel existing n = some l →
      ∀ i ∈ l, mkName fname sfx i ∉ existing := by
  intro n
  induction n with
  | zero =>
    intro existing l h i hi
    rw [createSinks] at h
    cases h
    simp at hi
  | succ m ih =>
    intro existing l h i hi
    rw [createSinks] at h
    cases hf : findName fname sfx existing fuel 0 with
    | none => rw [hf] at h; exact absurd h (by simp)
    | some j =>
      rw [hf] at h
      simp only [Option.some_bind] at h
      cases hc : createSinks fname sfx fuel (mkName fname sfx j :: existing) m with
      | none => rw [hc] at h; exact absurd h (by simp)
      | some rest =>
        rw [hc] at h
        simp only [Option.map_some'] at h
        cases h
        rcases List.mem_cons.mp hi with rfl | hmem
        · exact (findName_sound fname sfx existing fuel 0 i hf).2.1
        · intro hin
          exact ih (mkName fname sfx j :: existing) rest hc i hmem
            (List.mem_cons_of_mem _ hin)

/-- A successful sequence of n sink constructions returns n pairwise
distinct indices. -/
lemma createSinks_spec (fname sfx : String) (fuel : ℕ) :
    ∀ n existing l, createSinks fname sfx fuel existing n = some l →
      l.length = n ∧ l.Nodup := by
  intro n
  induction n with
  | zero =>
    intro existing l h
    rw [createSinks] at h
    cases h
    simp
  | succ m ih =>
    intro existing l h
    rw [createSinks] at h
    cases hf : findName fname sfx existing fuel 0 with
    | none => rw [hf] at h; exact absurd h (by simp)
    | some j =>
      rw [hf] at h
      simp only [Option.some_bind] at h
      cases hc : createSinks fname sfx fuel (mkName fname sfx j :: existing) m with
      | none => rw [hc] at h; exact absurd h (by simp)
      | some rest =>
        rw [hc] at h
        simp only [Option.map_some'] at h
        cases h
        obtain ⟨hlen, hnd⟩ := ih (mkName fname sfx j :: existing) rest hc
        refine ⟨by simp [hlen], List.nodup_cons.mpr ⟨?_, hnd⟩⟩
        intro hmem
        exact createSinks_fresh fname sfx fuel m
          (mkName fname sfx j :: existing) rest hc j hmem (List.mem_cons_self _ _)

/-- Formatting a value list that contains an absent value raises the
TypeError of the numeric format spec applied to None. -/
lemma mapValues_err (vals : List (Option ℚ)) (h : none ∈ vals) :
    mapValues vals = .error .typeError := by
  induction vals with
  | nil => simp at h
  | cons v rest ih =>
    rcases List.mem_cons.mp h with rfl | hm
    · rfl
    · cases v with
      | none => rfl
      | some q =>
        simp only [mapValues, formatValue]
        rw [ih hm]

/-- The breakpoint scan with the cold junction attribute absent raises
AttributeError exactly when some entry matches. -/
lemma tcScan_none_find (t : List (ℚ × List ℚ)) (mv : ℚ) :
    tcScan t mv none =
      if (t.find? (fun e => decide (mv < e.1))).isSome then
        .error .attributeError
      else .ok none := by
  induction t with
  | nil => rfl
  | cons e rest ih =>
    rcases le_or_lt e.1 mv with h | h
    · have h1 : tcScan (e :: rest) mv none = tcScan rest mv none := by
        simp [tcScan, h]
      rw [h1, ih, List.find?_cons_of_neg]
      simp only [decide_eq_true_eq]
      exact not_lt.mpr h
    · have h1 : tcScan (e :: rest) mv none = .error .attributeError := by
        simp [tcScan, not_le.mpr h]
      rw [h1, List.find?_cons_of_pos]
      · rfl
      · simp only [decide_eq_true_eq]
        exact h

/- Claim theorems. -/

/-- C1: for a session whose most recently read channel equals the channel
being read, keithley.py line 182 binds the local variable func only in the
branch taken when the channel differs from the cached one, yet line 193
dispatches on func unconditionally.  Re-reading channel 106 therefore
skips the route commands and issues the read query, but then raises
UnboundLocalError instead of returning the converted value.  The second
conjunct shows the same read succeeding when the cache holds a different
channel, returning the parsed value with only the route and read
commands. -/
theorem C1_cached_read_raises :
    read { lastread := 106, config := [(106, ("RES", noKws))],
           cold_junction_temp := none } 106 1000 = .error .unboundLocalError
    ∧
    read { lastread := 0, config := [(106, ("RES", noKws))],
           cold_junction_temp := none } 106 1000 =
      .ok ({ lastread := 106, config := [(106, ("RES", noKws))],
             cold_junction_temp := none },
           ["ROUT:CLOS (@106)", "READ?"], some 1000) :=
  ⟨rfl, rfl⟩

/-- C2 counterexample: in a fresh session no cold-junction source channel
has ever been read; the cold junction attribute is absent rather than 0,
and thermocouple conversion of the in-range value 1 raises AttributeError
instead of returning the breakpoint polynomial at 1 plus 0. -/
theorem C2_fresh_session_counterexample :
    K_init.cold_junction_temp = none ∧
    thermocouple_to_deg_c 1 "K" K_init.cold_junction_temp =
      .error .attributeError ∧
    thermocouple_to_deg_c 1 "K" K_init.cold_junction_temp ≠
      .ok (some (powerSeries kCoeffs1 1 + 0)) := by
  refine ⟨rfl, rfl, ?_⟩
  intro h
  rw [show thermocouple_to_deg_c 1 "K" K_init.cold_junction_temp =
        Except.error PyError.attributeError from rfl] at h
  exact Except.noConfusion h

/-- C2 amended: in a session where no cold-junction source channel has
been read the cold junction attribute is unset, not 0, and thermocouple
conversion of any in-range millivolt value that falls inside some
breakpoint range raises AttributeError instead of compensating with a
default of 0. -/
theorem C2_unset_cold_junction (mv bound : ℚ) (coeffs : List ℚ) :
    K_init.cold_junction_temp = none ∧
    (|mv| ≤ 100 →
      THERMOCOUPLE_TABLE_K.find? (fun e => decide (mv < e.1)) =
        some (bound, coeffs) →
      thermocouple_to_deg_c mv "K" K_init.cold_junction_temp =
        .error .attributeError) := by
  refine ⟨rfl, ?_⟩
  intro h1 h2
  have hn : ¬ 100 < |mv| := not_lt.mpr h1
  show thermocouple_to_deg_c mv "K" none = .error .attributeError
  rw [thermocouple_to_deg_c, if_neg hn,
    show THERMOCOUPLE_TABLES.lookup "K" = some THERMOCOUPLE_TABLE_K from rfl]
  dsimp only
  rw [tcScan_none_find, h2]
  rfl

/-- C2 amended witness at the concrete in-range input 1, whose matching
breakpoint is the second table entry. -/
theorem C2_unset_cold_junction_witness :
    thermocouple_to_deg_c 1 "K" K_init.cold_junction_temp =
      .error .attributeError :=
  (C2_unset_cold_junction 1 20.644 kCoeffs1).2 (by decide) rfl

/-- C3: thermocouple conversion returns no value when the magnitude of the
input exceeds 100; otherwise it skips the breakpoint entries whose upper
bound does not exceed the input and evaluates the first remaining entry as
the power series of its coefficients at the input plus the session cold
junction reference, and returns no value when no entry remains. -/
theorem C3_thermocouple_breakpoints (mv c bound : ℚ) (coeffs : List ℚ) :
    (100 < |mv| → thermocouple_to_deg_c mv "K" (some c) = .ok none) ∧
    (|mv| ≤ 100 →
      THERMOCOUPLE_TABLE_K.find? (fun e => decide (mv < e.1)) =
        some (bound, coeffs) →
      thermocouple_to_deg_c mv "K" (some c) =
        .ok (some (powerSeries coeffs mv + c))) ∧
    (|mv| ≤ 100 →
      THERMOCOUPLE_TABLE_K.find? (fun e => decide (mv < e.1)) = none →
      thermocouple_to_deg_c mv "K" (some c) = .ok none) := by
  refine ⟨?_, ?_, ?_⟩
  · intro h
    simp [thermocouple_to_deg_c, h]
  · intro h1 h2
    have hn : ¬ 100 < |mv| := not_lt.mpr h1
    rw [thermocouple_to_deg_c, if_neg hn,
      show THERMOCOUPLE_TABLES.lookup "K" = some THERMOCOUPLE_TABLE_K from rfl]
    dsimp only
    rw [tcScan_find, h2]
    simp [polyEval_eq_powerSeries]
  · intro h1 h2
    have hn : ¬ 100 < |mv| := not_lt.mpr h1
    rw [thermocouple_to_deg_c, if_neg hn,
      show THERMOCOUPLE_TABLES.lookup "K" = some THERMOCOUPLE_TABLE_K from rfl]
    dsimp only
    rw [tcScan_find, h2]
    rfl

/-- C3 witness at the concrete input 3 with reference 25: the first entry
is skipped because its bound 0 does not exceed 3, and the second entry is
evaluated. -/
theorem C3_thermocouple_breakpoints_witness :
    thermocouple_to_deg_c 3 "K" (some 25) =
      .ok (some (powerSeries kCoeffs1 3 + 25)) :=
  (C3_thermocouple_breakpoints 3 25 20.644 kCoeffs1).2.1 (by decide) rfl

/-- C4: the RTD conversion is exactly the linear formula of the claim, and
at the calibration point of 1000 ohms with reference resistance 1000 and
alpha 0.00385 it returns 0. -/
theorem C4_rtd_formula :
    (∀ r alpha ro : ℚ, rtd_to_deg_c r alpha ro = (r / ro - 1) / alpha) ∧
    rtd_to_deg_c 1000 0.00385 1000 = 0 :=
  ⟨fun _ _ _ => rfl, by decide⟩

/-- C5: the error query response with code 0 does not raise; the response
with code 350 raises KeithleyError whose message is built from the
command, the stripped message text and the code; and in general, for any
response line that splits into a code part parsing to the integer c and a
text part, a zero c returns normally and a non-zero c raises the
KeithleyError carrying command, text and code. -/
theorem C5_error_check (cmd err code text : String) (c : Int) :
    check_error cmd "0,\"No error\"" = .ok () ∧
    check_error cmd "350,\"Queue overflow\"" =
      .error (.keithleyError (errMsg cmd "Queue overflow" "350")) ∧
    (splitComma err = [code, text] → parseIntStr code = some c →
      ((c = 0 → check_error cmd err = .ok ()) ∧
       (c ≠ 0 → check_error cmd err =
          .error (.keithleyError
            (errMsg cmd (stripQuotes (pyTrim text)) code))))) := by
  refine ⟨rfl, rfl, ?_⟩
  intro hsplit hparse
  constructor
  · intro hc
    simp only [check_error]
    rw [hsplit]
    dsimp only
    rw [hparse]
    dsimp only
    rw [if_neg (by simp [hc])]
  · intro hc
    simp only [check_error]
    rw [hsplit]
    dsimp only
    rw [hparse]
    dsimp only
    rw [if_pos hc]

/-- C5 witness on the concrete command and the concrete non-zero error
response line with code 1. -/
theorem C5_error_check_witness :
    check_error "TRAC:CLEAR" "1,boom" =
      .error (.keithleyError (errMsg "TRAC:CLEAR" "boom" "1")) :=
  ((C5_error_check "TRAC:CLEAR" "1,boom" "1" "boom" 1).2.2 rfl rfl).2 (by decide)

/-- C6: readall iterates the configured channels in registration order,
but the first read of the cycle dispatches on the unassigned local func of
read whenever the most recently read channel equals the first registered
one, so a session whose last read was channel 106 crashes with
UnboundLocalError instead of returning all channels.  The second conjunct
shows that with a different cached channel the cycle succeeds and its
output keys equal the registration order. -/
theorem C6_readall_order :
    readall { lastread := 106,
              config := [(106, ("RTD", rtdKws)), (112, ("THERMOCOUPLE", tcKws))],
              cold_junction_temp := none } (fun _ => 1000) =
      .error .unboundLocalError
    ∧
    (readall { lastread := 0,
               config := [(106, ("RTD", rtdKws)), (112, ("THERMOCOUPLE", tcKws))],
               cold_junction_temp := none }
        (fun ch => if ch = 106 then 1000 else 1)).map
      (fun r => r.2.map Prod.fst) = .ok [106, 112] :=
  ⟨rfl, rfl⟩

/-- C7: in every valid interleaving of the sampling loop with a stop call,
the stop call returns strictly after every sample write, and the worker
has exited before the join returns, so no sample is written after stop
returns. -/
theorem C7_stop_join_no_late_writes (tr : List LoopEvent) (iJoin j : ℕ)
    (e : LoopEvent) (h : ValidTrace tr)
    (hJoin : tr[iJoin]? = some LoopEvent.joinReturn)
    (hj : tr[j]? = some e) (hw : isWriteEv e = true) :
    j < iJoin ∧ LoopEvent.workerExit ∈ tr.take iJoin := by
  obtain ⟨iS, iE, iJ, hS, hE, hJ, hSJ, hEJ, hwr, hcnt, huniq⟩ := h
  have hij : iJoin = iJ := huniq iJoin hJoin
  subst hij
  have hje : j < iE := hwr j e hj hw
  refine ⟨lt_trans hje hEJ, ?_⟩
  have h1 : (tr.take iJoin)[iE]? = some LoopEvent.workerExit := by
    rw [List.getElem?_take_of_lt hEJ]
    exact hE
  obtain ⟨hlt, heq⟩ := List.getElem?_eq_some_iff.mp h1
  exact heq ▸ List.getElem_mem hlt

/-- Concrete system trace for the C7 witness: the stop request arrives,
the in-flight iteration writes its sample, the worker exits, the join
returns. -/
def tr0 : List LoopEvent :=
  [.stopSet, .write [1], .workerExit, .joinReturn]

/-- The concrete trace is a valid interleaving. -/
lemma tr0_valid : ValidTrace tr0 := by
  refine ⟨0, 2, 3, rfl, rfl, rfl, by omega, by omega, ?_, by decide, ?_⟩
  · intro j e hj hw
    rcases j with _ | _ | _ | _ | n
    · simp [tr0] at hj
      rw [← hj] at hw
      simp [isWriteEv] at hw
    · omega
    · simp [tr0] at hj
      rw [← hj] at hw
      simp [isWriteEv] at hw
    · simp [tr0] at hj
      rw [← hj] at hw
      simp [isWriteEv] at hw
    · simp [tr0] at hj
  · intro i hi
    rcases i with _ | _ | _ | _ | n
    · simp [tr0] at hi
    · simp [tr0] at hi
    · simp [tr0] at hi
    · rfl
    · simp [tr0] at hi

/-- C7 witness on the concrete trace: the write at position 1 precedes the
join return at position 3, and the worker exit lies before the join
return. -/
theorem C7_stop_join_no_late_writes_witness :
    1 < 3 ∧ LoopEvent.workerExit ∈ tr0.take 3 :=
  C7_stop_join_no_late_writes tr0 3 1 (.write [1]) tr0_valid rfl rfl rfl

/-- C8: a successful name probe returns an index whose file name is not
among the existing files while every smaller index collides, so no
existing file is ever selected or overwritten; the probe succeeds whenever
some index within the fuel is free; and constructing n sinks in sequence
with the same prefix and tag yields n pairwise distinct indices. -/
theorem C8_name_selection (fname sfx : String) (existing : List String)
    (fuel n k : ℕ) :
    (∀ idx, findName fname sfx existing fuel 0 = some idx →
      mkName fname sfx idx ∉ existing ∧
        ∀ j, j < idx → mkName fname sfx j ∈ existing) ∧
    (k < fuel → mkName fname sfx k ∉ existing →
      (findName fname sfx existing fuel 0).isSome = true) ∧
    (∀ idxs, createSinks fname sfx fuel existing n = some idxs →
      idxs.length = n ∧ idxs.Nodup) := by
  refine ⟨?_, ?_, ?_⟩
  · intro idx h
    obtain ⟨-, h2, h3⟩ := findName_sound fname sfx existing fuel 0 idx h
    exact ⟨h2, fun j hj => h3 j (Nat.zero_le j) hj⟩
  · intro hk hfree
    exact findName_isSome fname sfx existing fuel 0 k (Nat.zero_le k)
      (by omega) hfree
  · intro idxs h
    exact createSinks_spec fname sfx fuel n existing idxs h

/-- C8 witness: with log_000_keithley.dat already present, the probe
succeeds, and two sequential constructions choose the distinct indices 1
and 2. -/
theorem C8_name_selection_witness :
    (findName "log" "keithley" ["log_000_keithley.dat"] 5 0).isSome = true ∧
    ([1, 2] : List ℕ).length = 2 ∧ ([1, 2] : List ℕ).Nodup :=
  ⟨(C8_name_selection "log" "keithley" ["log_000_keithley.dat"] 5 2 1).2.1
      (by decide) (by decide),
   ((C8_name_selection "log" "keithley" ["log_000_keithley.dat"] 5 2 1).2.2
      [1, 2] rfl).1,
   ((C8_name_selection "log" "keithley" ["log_000_keithley.dat"] 5 2 1).2.2
      [1, 2] rfl).2⟩

/-- C9 counterexample: writing a sample whose only reading is absent does
not produce a line at all; the numeric format spec applied to None raises
TypeError. -/
theorem C9_missing_reading_counterexample :
    output_data 0 [none] = .error .typeError := rfl

/-- C9 amended: a sample containing any absent reading is not written with
a sentinel; output_data raises TypeError and no line is produced. -/
theorem C9_missing_reading_raises (tm : ℚ) (vals : List (Option ℚ))
    (h : none ∈ vals) : output_data tm vals = .error .typeError := by
  simp only [output_data]
  rw [mapValues_err vals h]

/-- C9 amended witness on a sample with one present and one absent
reading. -/
theorem C9_missing_reading_raises_witness :
    output_data 0 [some 1, none] = .error .typeError :=
  C9_missing_reading_raises 0 [some 1, none] (by decide)

/-- C10: the implicit concatenation in the accepted function tuple makes
add reject the two intended names VOLT:AC and CURR:DC with ValueError
while the fused name VOLT:ACCURR:DC is accepted; every accepted function
is stored in the config under its channel and the channel is returned. -/
theorem C10_add_function_validation (st : KState) (ch : ℕ) (kws : Kws) :
    add st "VOLT:AC" ch kws = .error .valueError ∧
    add st "CURR:DC" ch kws = .error .valueError ∧
    "VOLT:ACCURR:DC" ∈ VALID_FUNCS ∧
    (∀ func, func ∈ VALID_FUNCS →
      add st func ch kws =
        .ok ({ st with config := configSet st.config ch (func, kws) },
             setup_ch func ch kws, ch) ∧
      lookupConfig (configSet st.config ch (func, kws)) ch =
        some (func, kws)) := by
  refine ⟨rfl, rfl, by decide, ?_⟩
  intro func hf
  constructor
  · simp only [add]
    rw [if_pos hf]
  · exact lookupConfig_configSet st.config ch (func, kws)

/-- C10 witness: adding the accepted function RES on channel 112 stores
the config there and returns the channel. -/
theorem C10_add_function_validation_witness :
    add K_init "RES" 112 tcKws =
      .ok ({ K_init with config := configSet K_init.config 112 ("RES", tcKws) },
           setup_ch "RES" 112 tcKws, 112) ∧
    lookupConfig (configSet K_init.config 112 ("RES", tcKws)) 112 =
      some ("RES", tcKws) :=
  (C10_add_function_validation K_init 112 tcKws).2.2.2 "RES" (by decide)
